import Mathlib

/-
  Verification of the tsconfig parsing crate (`src/lib.rs`).

  The development shallowly embeds the crate's pipeline:
    * `removeTrailingCommas` models the `Regex::new(r",(?P<valid>\s*})")`
      `replace_all` pass of `parse_str` (a single left-to-right scan that
      deletes a comma immediately followed, modulo whitespace, by `}`;
      it is not string-literal aware, exactly like the regex).
    * `stripGo` models the `json_comments::StripComments` reader: a byte
      state machine tracking string literals and `//`, `/* */` and `#`
      comments, replacing comment bytes by spaces.
    * `parseJson` models `serde_json`'s strict JSON grammar (one value,
      optionally surrounded by whitespace; no comments, no trailing commas).
    * `tsConfigOfJson` and friends model the serde-derived `Deserialize`
      implementations field by field, including the generated field-name
      enums (unknown keys ignored, duplicate fields rejected), and the
      hand-written `Deserialize` impls for `Target`, `Lib` and `Module`
      (uppercase the token, then match a literal table).
-/

namespace Tsconfig

/-- A strict JSON tree, the shape `serde_json` hands to the mappers.
Numbers keep their lexeme; the schema never consumes a number. -/
inductive Json where
  | null
  | bool (b : Bool)
  | num (lexeme : String)
  | str (s : String)
  | arr (elems : List Json)
  | obj (members : List (String × Json))

/-- Errors of the embedded pipeline, mirroring the error classes of
`json_comments`, `serde_json` and the serde derive machinery. -/
inductive DeError where
  | syntaxError
  | stripError
  | invalidType (expected : String)
  | invalidValue (found : String) (expected : String)
  | unknownVariant (found : String)
  | duplicateField (name : String)
  | missingField (name : String)
  | untaggedNoMatch (name : String)
deriving DecidableEq

/-! ### Strict JSON parser (model of `serde_json`) -/

def isJsonWs : Char → Bool
  | ' ' | '\t' | '\n' | '\r' => true
  | _ => false

def skipWs : List Char → List Char
  | [] => []
  | c :: cs => if isJsonWs c then skipWs cs else c :: cs

/-- Value of one hex digit of a `\u` escape. -/
def hexVal (c : Char) : Option Nat :=
  let n := c.toNat
  if 48 ≤ n ∧ n ≤ 57 then some (n - 48)
  else if 97 ≤ n ∧ n ≤ 102 then some (n - 87)
  else if 65 ≤ n ∧ n ≤ 70 then some (n - 55)
  else none

/-- Parse the body of a JSON string literal, after the opening quote.
Returns the decoded characters and the input after the closing quote. -/
def parseStringBody : List Char → Option (List Char × List Char)
  | [] => none
  | '"' :: rest => some ([], rest)
  | '\\' :: 'u' :: h1 :: h2 :: h3 :: h4 :: rest =>
    match hexVal h1, hexVal h2, hexVal h3, hexVal h4 with
    | some v1, some v2, some v3, some v4 =>
      (parseStringBody rest).map
        (fun p => (Char.ofNat (((v1 * 16 + v2) * 16 + v3) * 16 + v4) :: p.1, p.2))
    | _, _, _, _ => none
  | '\\' :: e :: rest =>
    let dec : Option Char :=
      if e == '"' then some '"'
      else if e == '\\' then some '\\'
      else if e == '/' then some '/'
      else if e == 'b' then some (Char.ofNat 8)
      else if e == 'f' then some (Char.ofNat 12)
      else if e == 'n' then some '\n'
      else if e == 'r' then some '\r'
      else if e == 't' then some '\t'
      else none
    match dec with
    | some ch => (parseStringBody rest).map (fun p => (ch :: p.1, p.2))
    | none => none
  | c :: rest =>
    if c.toNat < 32 then none
    else (parseStringBody rest).map (fun p => (c :: p.1, p.2))

def takeDigits : List Char → List Char × List Char
  | [] => ([], [])
  | c :: cs => if c.isDigit then let (ds, r) := takeDigits cs; (c :: ds, r) else ([], c :: cs)

/-- Parse a strict JSON number, keeping its lexeme. -/
def parseNumber (cs : List Char) : Option (Json × List Char) :=
  let (sign, cs1) := match cs with | '-' :: r => (['-'], r) | _ => (([] : List Char), cs)
  let (intDs, cs2) := takeDigits cs1
  if intDs.isEmpty then none
  else if intDs.length > 1 && intDs.headD '0' == '0' then none
  else
    let fr : Option (List Char × List Char) :=
      match cs2 with
      | '.' :: r =>
        let (ds, r2) := takeDigits r
        if ds.isEmpty then none else some ('.' :: ds, r2)
      | _ => some ([], cs2)
    match fr with
    | none => none
    | some (fracDs, cs3) =>
      let ex : Option (List Char × List Char) :=
        match cs3 with
        | c :: r =>
          if c == 'e' || c == 'E' then
            let (sgn, r1) := match r with
              | s :: r2 => if s == '+' || s == '-' then ([s], r2) else (([] : List Char), s :: r2)
              | [] => (([] : List Char), ([] : List Char))
            let (ds, r3) := takeDigits r1
            if ds.isEmpty then none else some (c :: (sgn ++ ds), r3)
          else some ([], c :: r)
        | [] => some ([], [])
      match ex with
      | none => none
      | some (expDs, cs4) =>
        some (.num (String.mk (sign ++ intDs ++ fracDs ++ expDs)), cs4)

mutual

/-- Parse one strict JSON value (fuel-bounded recursion). -/
def parseValue : Nat → List Char → Option (Json × List Char)
  | 0, _ => none
  | f + 1, cs =>
    match skipWs cs with
    | [] => none
    | c :: cs1 =>
      if c == '{' then
        match skipWs cs1 with
        | '}' :: rest => some (.obj [], rest)
        | cs2 => parseMembers f cs2 []
      else if c == '[' then
        match skipWs cs1 with
        | ']' :: rest => some (.arr [], rest)
        | cs2 => parseElems f cs2 []
      else if c == '"' then
        (parseStringBody cs1).map (fun p => (.str (String.mk p.1), p.2))
      else if c == 't' then
        match cs1 with
        | 'r' :: 'u' :: 'e' :: rest => some (.bool true, rest)
        | _ => none
      else if c == 'f' then
        match cs1 with
        | 'a' :: 'l' :: 's' :: 'e' :: rest => some (.bool false, rest)
        | _ => none
      else if c == 'n' then
        match cs1 with
        | 'u' :: 'l' :: 'l' :: rest => some (.null, rest)
        | _ => none
      else parseNumber (c :: cs1)

/-- Parse the elements of a non-empty array, starting at the first value. -/
def parseElems : Nat → List Char → List Json → Option (Json × List Char)
  | 0, _, _ => none
  | f + 1, cs, acc =>
    match parseValue f cs with
    | none => none
    | some (v, rest) =>
      match skipWs rest with
      | ',' :: rest1 => parseElems f rest1 (acc ++ [v])
      | ']' :: rest1 => some (.arr (acc ++ [v]), rest1)
      | _ => none

/-- Parse the members of a non-empty object, starting at the first key. -/
def parseMembers : Nat → List Char → List (String × Json) → Option (Json × List Char)
  | 0, _, _ => none
  | f + 1, cs, acc =>
    match skipWs cs with
    | '"' :: cs1 =>
      match parseStringBody cs1 with
      | none => none
      | some (k, rest) =>
        match skipWs rest with
        | ':' :: rest1 =>
          match parseValue f rest1 with
          | none => none
          | some (v, rest2) =>
            match skipWs rest2 with
            | ',' :: rest3 => parseMembers f rest3 (acc ++ [(String.mk k, v)])
            | '}' :: rest3 => some (.obj (acc ++ [(String.mk k, v)]), rest3)
            | _ => none
        | _ => none
    | _ => none

end

/-- Parse a whole strict JSON document: one value plus trailing whitespace,
as `serde_json::from_reader` requires. -/
def parseJson (s : String) : Option Json :=
  match parseValue (2 * s.length + 64) s.data with
  | some (j, rest) => if (skipWs rest).isEmpty then some j else none
  | none => none

/-! ### Preprocessor: trailing-comma regex and comment stripping -/

/-- Whitespace as matched by the regex escape used in `parse_str`. -/
def isRegexWs : Char → Bool
  | ' ' | '\t' | '\n' | '\r' => true
  | c => c.toNat = 11 ∨ c.toNat = 12

/-- Does the input start with optional whitespace followed by `}`? -/
def wsThenBrace : List Char → Bool
  | [] => false
  | c :: cs => if isRegexWs c then wsThenBrace cs else c == '}'

/-- The `re.replace_all(json, "$valid")` pass of `parse_str` for the pattern
matching a comma followed (modulo whitespace) by a closing brace: a single
left-to-right scan deleting each such comma.  Like the regex, it does not
know about string literals. -/
def removeTrailingCommas : List Char → List Char
  | [] => []
  | c :: cs =>
    if c == ',' && wsThenBrace cs then removeTrailingCommas cs
    else c :: removeTrailingCommas cs

/-- True when the input contains a comma followed (modulo whitespace) by `}`,
i.e. exactly when the trailing-comma regex of `parse_str` has a match. -/
def hasTrailingComma : List Char → Bool
  | [] => false
  | c :: cs => (c == ',' && wsThenBrace cs) || hasTrailingComma cs

/-- States of the `json_comments::StripComments` byte machine. -/
inductive CState where
  | top
  | inStr
  | strEsc
  | slash
  | lineC
  | blockC
  | blockStar

/-- The `json_comments::StripComments` reader: tracks string literals, turns
`//` and `#` line comments and `/* */` block comments into spaces, and fails
on a stray `/` or an unterminated block comment. -/
def stripGo : CState → List Char → Except DeError (List Char)
  | .top, [] => .ok []
  | .inStr, [] => .ok []
  | .strEsc, [] => .ok []
  | .slash, [] => .error .stripError
  | .lineC, [] => .ok []
  | .blockC, [] => .error .stripError
  | .blockStar, [] => .error .stripError
  | .top, c :: cs =>
    if c == '"' then (stripGo .inStr cs).map (c :: ·)
    else if c == '/' then (stripGo .slash cs).map (' ' :: ·)
    else if c == '#' then (stripGo .lineC cs).map (' ' :: ·)
    else (stripGo .top cs).map (c :: ·)
  | .inStr, c :: cs =>
    if c == '"' then (stripGo .top cs).map (c :: ·)
    else if c == '\\' then (stripGo .strEsc cs).map (c :: ·)
    else (stripGo .inStr cs).map (c :: ·)
  | .strEsc, c :: cs => (stripGo .inStr cs).map (c :: ·)
  | .slash, c :: cs =>
    if c == '/' then (stripGo .lineC cs).map (' ' :: ·)
    else if c == '*' then (stripGo .blockC cs).map (' ' :: ·)
    else .error .stripError
  | .lineC, c :: cs =>
    if c == '\n' then (stripGo .top cs).map (c :: ·)
    else (stripGo .lineC cs).map (' ' :: ·)
  | .blockC, c :: cs =>
    if c == '*' then (stripGo .blockStar cs).map (' ' :: ·)
    else (stripGo .blockC cs).map (' ' :: ·)
  | .blockStar, c :: cs =>
    if c == '/' then (stripGo .top cs).map (' ' :: ·)
    else if c == '*' then (stripGo .blockStar cs).map (' ' :: ·)
    else (stripGo .blockC cs).map (' ' :: ·)

/-- The comment-stripping stage of `parse_str`. -/
def stripComments (cs : List Char) : Except DeError (List Char) :=
  stripGo .top cs

/-- Both text-level stages of `parse_str`, in the source's order: first the
trailing-comma regex, then `StripComments`. -/
def preprocess (json : String) : Except DeError String :=
  (stripComments (removeTrailingCommas json.data)).map String.mk

/-! ### A scanner characterising comment-free input

`cleanGo` is a small independent machine: it tracks only string literals and
accepts exactly the inputs that contain no comment trigger (`/` or `#`)
outside a string literal and whose string literals are all terminated. -/

inductive SState where
  | top
  | inStr
  | esc

def cleanGo : SState → List Char → Bool
  | .top, [] => true
  | .inStr, [] => false
  | .esc, [] => false
  | .top, c :: cs =>
    if c == '/' || c == '#' then false
    else if c == '"' then cleanGo .inStr cs
    else cleanGo .top cs
  | .inStr, c :: cs =>
    if c == '"' then cleanGo .top cs
    else if c == '\\' then cleanGo .esc cs
    else cleanGo .inStr cs
  | .esc, _ :: cs => cleanGo .inStr cs

/-! ### Enum domains and their deserializers -/

/-- Rust's `str::to_uppercase`, as used by the hand-written deserializers
(ASCII case mapping suffices for every token of these domains). -/
def toUppercase (s : String) : String := String.mk (s.data.map Char.toUpper)

/-- The `Target` enum of the source, variants in source order.  `Es3` is
declared but, as in the source, no token of the lookup table produces it. -/
inductive Target where
  | Es3
  | Es5
  | Es2015
  | Es6
  | Es2016
  | Es7
  | Es2017
  | Es2018
  | Es2019
  | Es2020
  | EsNext
deriving DecidableEq

/-- The literal arms of the `match` in `impl Deserialize for Target`,
in source order. -/
def targetTable : List (String × Target) :=
  [("ES5", .Es5), ("ES2015", .Es2015), ("ES6", .Es6), ("ES2016", .Es2016),
   ("ES7", .Es7), ("ES2017", .Es2017), ("ES2018", .Es2018), ("ES2019", .Es2019),
   ("ES2020", .Es2020), ("ESNEXT", .EsNext)]

/-- `impl Deserialize for Target`: uppercase the token, match it against the
table, and fail with `invalid_value` (naming the uppercased token) on a miss. -/
def targetDeserialize (s : String) : Except DeError Target :=
  match targetTable.lookup (toUppercase s) with
  | some t => .ok t
  | none => .error (.invalidValue (toUppercase s) "valid target type")

/-- The `Lib` enum of the source, variants in source order. -/
inductive Lib where
  | Es5
  | Es2015
  | Es6
  | Es2016
  | Es7
  | Es2017
  | Es2018
  | Es2019
  | Es2020
  | EsNext
  | Dom
  | WebWorker
  | ScriptHost
  | DomIterable
  | Es2015Core
  | Es2015Generator
  | Es2015Iterable
  | Es2015Promise
  | Es2015Proxy
  | Es2015Reflect
  | Es2015Symbol
  | Es2015SymbolWellKnown
  | Es2016ArrayInclude
  | Es2017Object
  | Es2017Intl
  | Es2017SharedMemory
  | Es2017String
  | Es2017TypedArrays
  | Es2018Intl
  | Es2018Promise
  | Es2018RegExp
  | Es2019Array
  | Es2019Object
  | Es2019String
  | Es2019Symbol
  | Es2020String
  | Es2020SymbolWellknown
  | EsNextAsyncIterable
  | EsNextArray
  | EsNextIntl
  | EsNextSymbol
deriving DecidableEq

/-- The literal arms of the `match` in `impl Deserialize for Lib`, verbatim
from the source (including the mixed-case `"ESNext"` arm, which can never
match an uppercased token, and the source's irregular spellings such as
`"ES2017INTL"` and `"ES2015.ARRAY.INCLUDE"`). -/
def libTable : List (String × Lib) :=
  [("ES5", .Es5), ("ES2015", .Es2015), ("ES6", .Es6), ("ES2016", .Es2016),
   ("ES7", .Es7), ("ES2017", .Es2017), ("ES2018", .Es2018), ("ES2019", .Es2019),
   ("ES2020", .Es2020), ("ESNext", .EsNext), ("DOM", .Dom),
   ("WEBWORKER", .WebWorker), ("SCRIPTHOST", .ScriptHost),
   ("DOM.ITERABLE", .DomIterable), ("ES2015.CORE", .Es2015Core),
   ("ES2015.GENERATOR", .Es2015Generator), ("ES2015.ITERABLE", .Es2015Iterable),
   ("ES2015.PROMISE", .Es2015Promise), ("ES2015.PROXY", .Es2015Proxy),
   ("ES2015.REFLECT", .Es2015Reflect), ("ES2015.SYMBOL", .Es2015Symbol),
   ("ES2015.SYMBOL.WELLKNOWN", .Es2015SymbolWellKnown),
   ("ES2015.ARRAY.INCLUDE", .Es2016ArrayInclude), ("ES2015.OBJECT", .Es2017Object),
   ("ES2017INTL", .Es2017Intl), ("ES2015.SHAREDMEMORY", .Es2017SharedMemory),
   ("ES2017.STRING", .Es2017String), ("ES2017.TYPEDARRAYS", .Es2017TypedArrays),
   ("ES2018.INTL", .Es2018Intl), ("ES2018.PROMISE", .Es2018Promise),
   ("ES2018.REGEXP", .Es2018RegExp), ("ES2019.ARRAY", .Es2019Array),
   ("ES2019.OBJECT", .Es2019Object), ("ES2019.STRING", .Es2019String),
   ("ES2019.SYMBOL", .Es2019Symbol), ("ES2020.STRING", .Es2020String),
   ("ES2020.SYMBOL.WELLKNOWN", .Es2020SymbolWellknown),
   ("ESNEXT.ASYNCITERABLE", .EsNextAsyncIterable), ("ESNEXT.ARRAY", .EsNextArray),
   ("ESNEXT.INTL", .EsNextIntl), ("ESNEXT.SYMBOL", .EsNextSymbol)]

/-- `impl Deserialize for Lib`: uppercase the token, match the table, fail
with `invalid_value` on a miss. -/
def libDeserialize (s : String) : Except DeError Lib :=
  match libTable.lookup (toUppercase s) with
  | some t => .ok t
  | none => .error (.invalidValue (toUppercase s) "valid library type")

/-- The `Module` enum of the source, variants in source order. -/
inductive Module where
  | CommonJs
  | Es6
  | Es2015
  | Es2020
  | None
  | Umd
  | Amd
  | System
  | EsNext
deriving DecidableEq

/-- The literal arms of the `match` in `impl Deserialize for Module`,
in source order. -/
def moduleTable : List (String × Module) :=
  [("COMMONJS", .CommonJs), ("ESNEXT", .EsNext), ("ES6", .Es6),
   ("ES2015", .Es2015), ("ES2020", .Es2020), ("NONE", .None), ("UMD", .Umd),
   ("AMD", .Amd), ("SYSTEM", .System)]

/-- `impl Deserialize for Module`: uppercase the token, match the table, fail
with `invalid_value` on a miss. -/
def moduleDeserialize (s : String) : Except DeError Module :=
  match moduleTable.lookup (toUppercase s) with
  | some t => .ok t
  | none => .error (.invalidValue (toUppercase s) "valid module type")

/-- The `Jsx` enum of the source. -/
inductive Jsx where
  | React
  | ReactJsx
  | ReactJsxdev
  | ReactNative
  | Preserve
deriving DecidableEq

/-- The serde-derived `Jsx` deserializer: variant names in kebab-case,
matched exactly (no case folding), unknown variants rejected. -/
def jsxTable : List (String × Jsx) :=
  [("react", .React), ("react-jsx", .ReactJsx), ("react-jsxdev", .ReactJsxdev),
   ("react-native", .ReactNative), ("preserve", .Preserve)]

def jsxDeserialize (s : String) : Except DeError Jsx :=
  match jsxTable.lookup s with
  | some t => .ok t
  | none => .error (.unknownVariant s)

/-- The `ModuleResolutionMode` enum of the source. -/
inductive ModuleResolutionMode where
  | Node
  | Classic
deriving DecidableEq

/-- The serde-derived `ModuleResolutionMode` deserializer: the renamed
variant tokens `"node"` and `"classic"`, matched exactly (no case folding). -/
def mrmTable : List (String × ModuleResolutionMode) :=
  [("node", .Node), ("classic", .Classic)]

def mrmDeserialize (s : String) : Except DeError ModuleResolutionMode :=
  match mrmTable.lookup s with
  | some t => .ok t
  | none => .error (.unknownVariant s)

/-! ### JSON-kind coercions used by the derived struct deserializers -/

def asBool : Json → Except DeError Bool
  | .bool b => .ok b
  | _ => .error (.invalidType "a boolean")

def asString : Json → Except DeError String
  | .str s => .ok s
  | _ => .error (.invalidType "a string")

def asStringList : Json → Except DeError (List String)
  | .arr xs => xs.mapM asString
  | _ => .error (.invalidType "a sequence")

/-- `Option<T>` in serde: `null` deserializes to `None`, anything else to
`Some` of the inner deserialization. -/
def asOpt {α : Type} (p : Json → Except DeError α) : Json → Except DeError (Option α)
  | .null => .ok none
  | v => (p v).map some

/-- `HashMap<String, Vec<String>>` (the `paths` field), kept as the
association list in document order. -/
def asPaths : Json → Except DeError (List (String × List String))
  | .obj kvs => kvs.mapM (fun kv => (asStringList kv.2).map (fun l => (kv.1, l)))
  | _ => .error (.invalidType "a map")

def asLibList : Json → Except DeError (List Lib)
  | .arr xs =>
    xs.mapM (fun j =>
      match j with
      | .str s => libDeserialize s
      | _ => .error (.invalidType "a string"))
  | _ => .error (.invalidType "a sequence")

def targetOfJson : Json → Except DeError Target
  | .str s => targetDeserialize s
  | _ => .error (.invalidType "a string")

def moduleOfJson : Json → Except DeError Module
  | .str s => moduleDeserialize s
  | _ => .error (.invalidType "a string")

def jsxOfJson : Json → Except DeError Jsx
  | .str s => jsxDeserialize s
  | _ => .error (.invalidType "a string")

def mrmOfJson : Json → Except DeError ModuleResolutionMode
  | .str s => mrmDeserialize s
  | _ => .error (.invalidType "a string")

/-- Collapse a field slot at the end of a visitor: a field never seen and a
field explicitly set to `null` both come out as `none`. -/
def slotJoin {α : Type} : Option (Option α) → Option α
  | some x => x
  | none => none

/-- One step of a serde-derived map visitor: fill a field slot, rejecting a
second occurrence of the same field like the generated code does. -/
def setSlot {α : Type} (name : String) (slot : Option α)
    (p : Json → Except DeError α) (v : Json) : Except DeError (Option α) :=
  match slot with
  | some _ => .error (.duplicateField name)
  | none => (p v).map some

/-- Sequential traversal of an object's members by a visitor step, stopping
at the first error, as the serde-generated `visit_map` loop does. -/
def foldSteps {σ : Type} (step : σ → (String × Json) → Except DeError σ) :
    σ → List (String × Json) → Except DeError σ
  | b, [] => .ok b
  | b, kv :: kvs =>
    match step b kv with
    | .error e => .error e
    | .ok b2 => foldSteps step b2 kvs

/-! ### `Reference` and `References` -/

/-- The `Reference` struct of the source. -/
structure Reference where
  path : String
  prepend : Option Bool := none
deriving DecidableEq

/-- The field-name enum serde derives for `Reference`. -/
inductive RefField where
  | path
  | prepend

def refFieldTable : List (String × RefField) :=
  [("path", .path), ("prepend", .prepend)]

/-- Partial state of the derived `Reference` visitor. -/
structure RefBuilder where
  path : Option String := none
  prepend : Option (Option Bool) := none

def refApply (b : RefBuilder) : RefField → Json → Except DeError RefBuilder
  | .path, v => (setSlot "path" b.path asString v).map (fun x => { b with path := x })
  | .prepend, v =>
    (setSlot "prepend" b.prepend (asOpt asBool) v).map (fun x => { b with prepend := x })

def refStep (b : RefBuilder) (kv : String × Json) : Except DeError RefBuilder :=
  match refFieldTable.lookup kv.1 with
  | none => .ok b
  | some f => refApply b f kv.2

/-- The serde-derived `Deserialize` for `Reference`: an object with a
required `path` string, an optional `prepend` boolean, unknown keys
ignored. -/
def referenceOfJson : Json → Except DeError Reference
  | .obj kvs =>
    match foldSteps refStep {} kvs with
    | .error e => .error e
    | .ok b =>
      match b.path with
      | none => .error (.missingField "path")
      | some p => .ok { path := p, prepend := (slotJoin b.prepend) }
  | _ => .error (.invalidType "struct Reference")

/-- The `References` enum of the source (`#[serde(untagged)]`). -/
inductive References where
  | Bool (b : Bool)
  | References (rs : List Reference)
deriving DecidableEq

/-- The untagged `References` deserializer: try the `Bool` variant first,
then `Vec<Reference>`; if neither matches, the inner error is replaced by the
generic untagged-enum failure. -/
def referencesOfJson (j : Json) : Except DeError References :=
  match j with
  | .bool b => .ok (.Bool b)
  | .arr xs =>
    match xs.mapM referenceOfJson with
    | .ok rs => .ok (.References rs)
    | .error _ => .error (.untaggedNoMatch "References")
  | _ => .error (.untaggedNoMatch "References")

/-! ### `TypeAcquisition`

The source derives `Deserialize` for `TypeAcquisition` WITHOUT
`#[serde(untagged)]`, so the generated code expects the externally tagged
enum encoding: a map with the single key `"Bool"` or `"Object"`. -/

/-- The `TypeAcquisition` enum of the source. -/
inductive TypeAcquisition where
  | Bool (b : Bool)
  | Object (enable : Bool) («include» : Option (List String))
      («exclude» : Option (List String))
      (disable_filename_based_type_acquisition : Option Bool)
deriving DecidableEq

/-- Field-name dispatch for the `Object` struct variant's fields. -/
inductive TAField where
  | enable
  | «include»
  | «exclude»
  | disable_filename_based_type_acquisition

def taFieldTable : List (String × TAField) :=
  [("enable", .enable), ("include", .«include»), ("exclude", .«exclude»),
   ("disable_filename_based_type_acquisition", .disable_filename_based_type_acquisition)]

structure TABuilder where
  enable : Option Bool := none
  «include» : Option (Option (List String)) := none
  «exclude» : Option (Option (List String)) := none
  disable_filename_based_type_acquisition : Option (Option Bool) := none

def taApply (b : TABuilder) : TAField → Json → Except DeError TABuilder
  | .enable, v => (setSlot "enable" b.enable asBool v).map (fun x => { b with enable := x })
  | .«include», v =>
    (setSlot "include" b.«include» (asOpt asStringList) v).map
      (fun x => { b with «include» := x })
  | .«exclude», v =>
    (setSlot "exclude" b.«exclude» (asOpt asStringList) v).map
      (fun x => { b with «exclude» := x })
  | .disable_filename_based_type_acquisition, v =>
    (setSlot "disable_filename_based_type_acquisition"
        b.disable_filename_based_type_acquisition (asOpt asBool) v).map
      (fun x => { b with disable_filename_based_type_acquisition := x })

def taStep (b : TABuilder) (kv : String × Json) : Except DeError TABuilder :=
  match taFieldTable.lookup kv.1 with
  | none => .ok b
  | some f => taApply b f kv.2

/-- Content of the `Object` struct variant: requires `enable`. -/
def taObjectOfJson : Json → Except DeError TypeAcquisition
  | .obj kvs =>
    match foldSteps taStep {} kvs with
    | .error e => .error e
    | .ok b =>
      match b.enable with
      | none => .error (.missingField "enable")
      | some en =>
        .ok (.Object en (slotJoin b.«include») (slotJoin b.«exclude»)
          (slotJoin b.disable_filename_based_type_acquisition))
  | _ => .error (.invalidType "struct variant TypeAcquisition.Object")

/-- The derived (externally tagged) `TypeAcquisition` deserializer: only a
single-key map tagged `"Bool"` or `"Object"` is accepted; a bare boolean or a
plain settings object is rejected. -/
def typeAcquisitionOfJson (j : Json) : Except DeError TypeAcquisition :=
  match j with
  | .obj [(k, v)] =>
    if k == "Bool" then (asBool v).map .Bool
    else if k == "Object" then taObjectOfJson v
    else .error (.unknownVariant k)
  | .obj _ => .error (.invalidType "map with a single key")
  | .str s =>
    if s == "Bool" || s == "Object" then .error (.invalidType "variant with data")
    else .error (.unknownVariant s)
  | _ => .error (.invalidType "enum TypeAcquisition")

/-! ### `CompilerOptions`

The source derives `Deserialize` for `CompilerOptions` WITHOUT a
`rename_all` attribute, so the generated field-name table uses the
snake_case Rust field names verbatim. -/

/-- The `CompilerOptions` struct of the source, fields in source order. -/
structure CompilerOptions where
  allow_js : Option Bool := none
  check_js : Option Bool := none
  composite : Option Bool := none
  declaration : Option Bool := none
  declaration_map : Option Bool := none
  downlevel_iteration : Option Bool := none
  import_helpers : Option Bool := none
  incremental : Option Bool := none
  isolated_modules : Option Bool := none
  jsx : Option Jsx := none
  lib : Option (List Lib) := none
  module : Option Module := none
  no_emit : Option Bool := none
  out_dir : Option String := none
  out_file : Option String := none
  remove_comments : Option Bool := none
  root_dir : Option String := none
  source_map : Option Bool := none
  target : Option Target := none
  ts_build_info_file : Option String := none
  always_strict : Option Bool := none
  no_implicit_any : Option Bool := none
  no_implicit_this : Option Bool := none
  strict : Option Bool := none
  strict_bind_call_apply : Option Bool := none
  strict_function_types : Option Bool := none
  strict_null_checks : Option Bool := none
  strict_property_initialization : Option Bool := none
  allow_synthetic_default_imports : Option Bool := none
  allow_umd_global_access : Option Bool := none
  base_url : Option Bool := none
  es_module_interop : Option Bool := none
  module_resolution : Option ModuleResolutionMode := none
  paths : Option (List (String × List String)) := none
  preserve_symlinks : Option Bool := none
  root_dirs : Option (List String) := none
  type_roots : Option (List String) := none
  types : Option (List String) := none
  inline_source_map : Option Bool := none
  inline_sources : Option Bool := none
  map_root : Option String := none
  source_root : Option String := none
  no_fallthrough_cases_in_switch : Option Bool := none
  no_implicit_returns : Option Bool := none
  no_property_access_from_index_signature : Option Bool := none
deriving DecidableEq

/-- The field-name enum serde derives for `CompilerOptions`. -/
inductive COField where
  | allow_js
  | check_js
  | composite
  | declaration
  | declaration_map
  | downlevel_iteration
  | import_helpers
  | incremental
  | isolated_modules
  | jsx
  | lib
  | module
  | no_emit
  | out_dir
  | out_file
  | remove_comments
  | root_dir
  | source_map
  | target
  | ts_build_info_file
  | always_strict
  | no_implicit_any
  | no_implicit_this
  | strict
  | strict_bind_call_apply
  | strict_function_types
  | strict_null_checks
  | strict_property_initialization
  | allow_synthetic_default_imports
  | allow_umd_global_access
  | base_url
  | es_module_interop
  | module_resolution
  | paths
  | preserve_symlinks
  | root_dirs
  | type_roots
  | types
  | inline_source_map
  | inline_sources
  | map_root
  | source_root
  | no_fallthrough_cases_in_switch
  | no_implicit_returns
  | no_property_access_from_index_signature

/-- Key-to-field dispatch for `CompilerOptions`: the keys are the Rust field
names unchanged (no camelCase renaming in the source). -/
def coFieldTable : List (String × COField) :=
  [("allow_js", .allow_js), ("check_js", .check_js), ("composite", .composite),
   ("declaration", .declaration), ("declaration_map", .declaration_map),
   ("downlevel_iteration", .downlevel_iteration), ("import_helpers", .import_helpers),
   ("incremental", .incremental), ("isolated_modules", .isolated_modules),
   ("jsx", .jsx), ("lib", .lib), ("module", .module), ("no_emit", .no_emit),
   ("out_dir", .out_dir), ("out_file", .out_file), ("remove_comments", .remove_comments),
   ("root_dir", .root_dir), ("source_map", .source_map), ("target", .target),
   ("ts_build_info_file", .ts_build_info_file), ("always_strict", .always_strict),
   ("no_implicit_any", .no_implicit_any), ("no_implicit_this", .no_implicit_this),
   ("strict", .strict), ("strict_bind_call_apply", .strict_bind_call_apply),
   ("strict_function_types", .strict_function_types),
   ("strict_null_checks", .strict_null_checks),
   ("strict_property_initialization", .strict_property_initialization),
   ("allow_synthetic_default_imports", .allow_synthetic_default_imports),
   ("allow_umd_global_access", .allow_umd_global_access), ("base_url", .base_url),
   ("es_module_interop", .es_module_interop), ("module_resolution", .module_resolution),
   ("paths", .paths), ("preserve_symlinks", .preserve_symlinks),
   ("root_dirs", .root_dirs), ("type_roots", .type_roots), ("types", .types),
   ("inline_source_map", .inline_source_map), ("inline_sources", .inline_sources),
   ("map_root", .map_root), ("source_root", .source_root),
   ("no_fallthrough_cases_in_switch", .no_fallthrough_cases_in_switch),
   ("no_implicit_returns", .no_implicit_returns),
   ("no_property_access_from_index_signature", .no_property_access_from_index_signature)]

/-- Partial state of the derived `CompilerOptions` visitor: one slot per
field, `some` once the field has been seen (even with value `null`). -/
structure COBuilder where
  allow_js : Option (Option Bool) := none
  check_js : Option (Option Bool) := none
  composite : Option (Option Bool) := none
  declaration : Option (Option Bool) := none
  declaration_map : Option (Option Bool) := none
  downlevel_iteration : Option (Option Bool) := none
  import_helpers : Option (Option Bool) := none
  incremental : Option (Option Bool) := none
  isolated_modules : Option (Option Bool) := none
  jsx : Option (Option Jsx) := none
  lib : Option (Option (List Lib)) := none
  module : Option (Option Module) := none
  no_emit : Option (Option Bool) := none
  out_dir : Option (Option String) := none
  out_file : Option (Option String) := none
  remove_comments : Option (Option Bool) := none
  root_dir : Option (Option String) := none
  source_map : Option (Option Bool) := none
  target : Option (Option Target) := none
  ts_build_info_file : Option (Option String) := none
  always_strict : Option (Option Bool) := none
  no_implicit_any : Option (Option Bool) := none
  no_implicit_this : Option (Option Bool) := none
  strict : Option (Option Bool) := none
  strict_bind_call_apply : Option (Option Bool) := none
  strict_function_types : Option (Option Bool) := none
  strict_null_checks : Option (Option Bool) := none
  strict_property_initialization : Option (Option Bool) := none
  allow_synthetic_default_imports : Option (Option Bool) := none
  allow_umd_global_access : Option (Option Bool) := none
  base_url : Option (Option Bool) := none
  es_module_interop : Option (Option Bool) := none
  module_resolution : Option (Option ModuleResolutionMode) := none
  paths : Option (Option (List (String × List String))) := none
  preserve_symlinks : Option (Option Bool) := none
  root_dirs : Option (Option (List String)) := none
  type_roots : Option (Option (List String)) := none
  types : Option (Option (List String)) := none
  inline_source_map : Option (Option Bool) := none
  inline_sources : Option (Option Bool) := none
  map_root : Option (Option String) := none
  source_root : Option (Option String) := none
  no_fallthrough_cases_in_switch : Option (Option Bool) := none
  no_implicit_returns : Option (Option Bool) := none
  no_property_access_from_index_signature : Option (Option Bool) := none

def coApply (b : COBuilder) : COField → Json → Except DeError COBuilder
  | .allow_js, v =>
    (setSlot "allow_js" b.allow_js (asOpt asBool) v).map (fun x => { b with allow_js := x })
  | .check_js, v =>
    (setSlot "check_js" b.check_js (asOpt asBool) v).map (fun x => { b with check_js := x })
  | .composite, v =>
    (setSlot "composite" b.composite (asOpt asBool) v).map (fun x => { b with composite := x })
  | .declaration, v =>
    (setSlot "declaration" b.declaration (asOpt asBool) v).map
      (fun x => { b with declaration := x })
  | .declaration_map, v =>
    (setSlot "declaration_map" b.declaration_map (asOpt asBool) v).map
      (fun x => { b with declaration_map := x })
  | .downlevel_iteration, v =>
    (setSlot "downlevel_iteration" b.downlevel_iteration (asOpt asBool) v).map
      (fun x => { b with downlevel_iteration := x })
  | .import_helpers, v =>
    (setSlot "import_helpers" b.import_helpers (asOpt asBool) v).map
      (fun x => { b with import_helpers := x })
  | .incremental, v =>
    (setSlot "incremental" b.incremental (asOpt asBool) v).map
      (fun x => { b with incremental := x })
  | .isolated_modules, v =>
    (setSlot "isolated_modules" b.isolated_modules (asOpt asBool) v).map
      (fun x => { b with isolated_modules := x })
  | .jsx, v =>
    (setSlot "jsx" b.jsx (asOpt jsxOfJson) v).map (fun x => { b with jsx := x })
  | .lib, v =>
    (setSlot "lib" b.lib (asOpt asLibList) v).map (fun x => { b with lib := x })
  | .module, v =>
    (setSlot "module" b.module (asOpt moduleOfJson) v).map (fun x => { b with module := x })
  | .no_emit, v =>
    (setSlot "no_emit" b.no_emit (asOpt asBool) v).map (fun x => { b with no_emit := x })
  | .out_dir, v =>
    (setSlot "out_dir" b.out_dir (asOpt asString) v).map (fun x => { b with out_dir := x })
  | .out_file, v =>
    (setSlot "out_file" b.out_file (asOpt asString) v).map (fun x => { b with out_file := x })
  | .remove_comments, v =>
    (setSlot "remove_comments" b.remove_comments (asOpt asBool) v).map
      (fun x => { b with remove_comments := x })
  | .root_dir, v =>
    (setSlot "root_dir" b.root_dir (asOpt asString) v).map (fun x => { b with root_dir := x })
  | .source_map, v =>
    (setSlot "source_map" b.source_map (asOpt asBool) v).map
      (fun x => { b with source_map := x })
  | .target, v =>
    (setSlot "target" b.target (asOpt targetOfJson) v).map (fun x => { b with target := x })
  | .ts_build_info_file, v =>
    (setSlot "ts_build_info_file" b.ts_build_info_file (asOpt asString) v).map
      (fun x => { b with ts_build_info_file := x })
  | .always_strict, v =>
    (setSlot "always_strict" b.always_strict (asOpt asBool) v).map
      (fun x => { b with always_strict := x })
  | .no_implicit_any, v =>
    (setSlot "no_implicit_any" b.no_implicit_any (asOpt asBool) v).map
      (fun x => { b with no_implicit_any := x })
  | .no_implicit_this, v =>
    (setSlot "no_implicit_this" b.no_implicit_this (asOpt asBool) v).map
      (fun x => { b with no_implicit_this := x })
  | .strict, v =>
    (setSlot "strict" b.strict (asOpt asBool) v).map (fun x => { b with strict := x })
  | .strict_bind_call_apply, v =>
    (setSlot "strict_bind_call_apply" b.strict_bind_call_apply (asOpt asBool) v).map
      (fun x => { b with strict_bind_call_apply := x })
  | .strict_function_types, v =>
    (setSlot "strict_function_types" b.strict_function_types (asOpt asBool) v).map
      (fun x => { b with strict_function_types := x })
  | .strict_null_checks, v =>
    (setSlot "strict_null_checks" b.strict_null_checks (asOpt asBool) v).map
      (fun x => { b with strict_null_checks := x })
  | .strict_property_initialization, v =>
    (setSlot "strict_property_initialization" b.strict_property_initialization
        (asOpt asBool) v).map
      (fun x => { b with strict_property_initialization := x })
  | .allow_synthetic_default_imports, v =>
    (setSlot "allow_synthetic_default_imports" b.allow_synthetic_default_imports
        (asOpt asBool) v).map
      (fun x => { b with allow_synthetic_default_imports := x })
  | .allow_umd_global_access, v =>
    (setSlot "allow_umd_global_access" b.allow_umd_global_access (asOpt asBool) v).map
      (fun x => { b with allow_umd_global_access := x })
  | .base_url, v =>
    (setSlot "base_url" b.base_url (asOpt asBool) v).map (fun x => { b with base_url := x })
  | .es_module_interop, v =>
    (setSlot "es_module_interop" b.es_module_interop (asOpt asBool) v).map
      (fun x => { b with es_module_interop := x })
  | .module_resolution, v =>
    (setSlot "module_resolution" b.module_resolution (asOpt mrmOfJson) v).map
      (fun x => { b with module_resolution := x })
  | .paths, v =>
    (setSlot "paths" b.paths (asOpt asPaths) v).map (fun x => { b with paths := x })
  | .preserve_symlinks, v =>
    (setSlot "preserve_symlinks" b.preserve_symlinks (asOpt asBool) v).map
      (fun x => { b with preserve_symlinks := x })
  | .root_dirs, v =>
    (setSlot "root_dirs" b.root_dirs (asOpt asStringList) v).map
      (fun x => { b with root_dirs := x })
  | .type_roots, v =>
    (setSlot "type_roots" b.type_roots (asOpt asStringList) v).map
      (fun x => { b with type_roots := x })
  | .types, v =>
    (setSlot "types" b.types (asOpt asStringList) v).map (fun x => { b with types := x })
  | .inline_source_map, v =>
    (setSlot "inline_source_map" b.inline_source_map (asOpt asBool) v).map
      (fun x => { b with inline_source_map := x })
  | .inline_sources, v =>
    (setSlot "inline_sources" b.inline_sources (asOpt asBool) v).map
      (fun x => { b with inline_sources := x })
  | .map_root, v =>
    (setSlot "map_root" b.map_root (asOpt asString) v).map (fun x => { b with map_root := x })
  | .source_root, v =>
    (setSlot "source_root" b.source_root (asOpt asString) v).map
      (fun x => { b with source_root := x })
  | .no_fallthrough_cases_in_switch, v =>
    (setSlot "no_fallthrough_cases_in_switch" b.no_fallthrough_cases_in_switch
        (asOpt asBool) v).map
      (fun x => { b with no_fallthrough_cases_in_switch := x })
  | .no_implicit_returns, v =>
    (setSlot "no_implicit_returns" b.no_implicit_returns (asOpt asBool) v).map
      (fun x => { b with no_implicit_returns := x })
  | .no_property_access_from_index_signature, v =>
    (setSlot "no_property_access_from_index_signature"
        b.no_property_access_from_index_signature (asOpt asBool) v).map
      (fun x => { b with no_property_access_from_index_signature := x })

def coStep (b : COBuilder) (kv : String × Json) : Except DeError COBuilder :=
  match coFieldTable.lookup kv.1 with
  | none => .ok b
  | some f => coApply b f kv.2

/-- Assemble the `CompilerOptions` value: every field is optional, so a
missing slot just becomes `none`. -/
def coFinalize (b : COBuilder) : CompilerOptions :=
  { allow_js := (slotJoin b.allow_js), check_js := (slotJoin b.check_js),
    composite := (slotJoin b.composite), declaration := (slotJoin b.declaration),
    declaration_map := (slotJoin b.declaration_map),
    downlevel_iteration := (slotJoin b.downlevel_iteration),
    import_helpers := (slotJoin b.import_helpers), incremental := (slotJoin b.incremental),
    isolated_modules := (slotJoin b.isolated_modules), jsx := (slotJoin b.jsx),
    lib := (slotJoin b.lib), module := (slotJoin b.module), no_emit := (slotJoin b.no_emit),
    out_dir := (slotJoin b.out_dir), out_file := (slotJoin b.out_file),
    remove_comments := (slotJoin b.remove_comments), root_dir := (slotJoin b.root_dir),
    source_map := (slotJoin b.source_map), target := (slotJoin b.target),
    ts_build_info_file := (slotJoin b.ts_build_info_file),
    always_strict := (slotJoin b.always_strict),
    no_implicit_any := (slotJoin b.no_implicit_any),
    no_implicit_this := (slotJoin b.no_implicit_this), strict := (slotJoin b.strict),
    strict_bind_call_apply := (slotJoin b.strict_bind_call_apply),
    strict_function_types := (slotJoin b.strict_function_types),
    strict_null_checks := (slotJoin b.strict_null_checks),
    strict_property_initialization := (slotJoin b.strict_property_initialization),
    allow_synthetic_default_imports := (slotJoin b.allow_synthetic_default_imports),
    allow_umd_global_access := (slotJoin b.allow_umd_global_access),
    base_url := (slotJoin b.base_url), es_module_interop := (slotJoin b.es_module_interop),
    module_resolution := (slotJoin b.module_resolution), paths := (slotJoin b.paths),
    preserve_symlinks := (slotJoin b.preserve_symlinks),
    root_dirs := (slotJoin b.root_dirs), type_roots := (slotJoin b.type_roots),
    types := (slotJoin b.types), inline_source_map := (slotJoin b.inline_source_map),
    inline_sources := (slotJoin b.inline_sources), map_root := (slotJoin b.map_root),
    source_root := (slotJoin b.source_root),
    no_fallthrough_cases_in_switch := (slotJoin b.no_fallthrough_cases_in_switch),
    no_implicit_returns := (slotJoin b.no_implicit_returns),
    no_property_access_from_index_signature :=
      (slotJoin b.no_property_access_from_index_signature) }

/-- The serde-derived `Deserialize` for `CompilerOptions`. -/
def compilerOptionsOfJson : Json → Except DeError CompilerOptions
  | .obj kvs =>
    match foldSteps coStep {} kvs with
    | .error e => .error e
    | .ok b => .ok (coFinalize b)
  | _ => .error (.invalidType "struct CompilerOptions")

/-! ### `TsConfig` and the entry point -/

/-- The `TsConfig` struct of the source, fields in source order. -/
structure TsConfig where
  «exclude» : Option (List String) := none
  «extends» : Option String := none
  files : Option (List String) := none
  «include» : Option (List String) := none
  references : Option References := none
  type_acquisition : Option TypeAcquisition := none
  compiler_options : Option CompilerOptions := none
deriving DecidableEq

/-- The field-name enum serde derives for `TsConfig`. -/
inductive TCField where
  | «exclude»
  | «extends»
  | files
  | «include»
  | references
  | type_acquisition
  | compiler_options

/-- Key-to-field dispatch for `TsConfig`: the struct carries
`#[serde(rename_all = "camelCase")]`, so the keys are the camelCase forms of
the field names. -/
def tcFieldTable : List (String × TCField) :=
  [("exclude", .«exclude»), ("extends", .«extends»), ("files", .files),
   ("include", .«include»), ("references", .references),
   ("typeAcquisition", .type_acquisition),
   ("compilerOptions", .compiler_options)]

structure TCBuilder where
  «exclude» : Option (Option (List String)) := none
  «extends» : Option (Option String) := none
  files : Option (Option (List String)) := none
  «include» : Option (Option (List String)) := none
  references : Option (Option References) := none
  type_acquisition : Option (Option TypeAcquisition) := none
  compiler_options : Option (Option CompilerOptions) := none

def tcApply (b : TCBuilder) : TCField → Json → Except DeError TCBuilder
  | .«exclude», v =>
    (setSlot "exclude" b.«exclude» (asOpt asStringList) v).map
      (fun x => { b with «exclude» := x })
  | .«extends», v =>
    (setSlot "extends" b.«extends» (asOpt asString) v).map
      (fun x => { b with «extends» := x })
  | .files, v =>
    (setSlot "files" b.files (asOpt asStringList) v).map (fun x => { b with files := x })
  | .«include», v =>
    (setSlot "include" b.«include» (asOpt asStringList) v).map
      (fun x => { b with «include» := x })
  | .references, v =>
    (setSlot "references" b.references (asOpt referencesOfJson) v).map
      (fun x => { b with references := x })
  | .type_acquisition, v =>
    (setSlot "typeAcquisition" b.type_acquisition (asOpt typeAcquisitionOfJson) v).map
      (fun x => { b with type_acquisition := x })
  | .compiler_options, v =>
    (setSlot "compilerOptions" b.compiler_options (asOpt compilerOptionsOfJson) v).map
      (fun x => { b with compiler_options := x })

def tcStep (b : TCBuilder) (kv : String × Json) : Except DeError TCBuilder :=
  match tcFieldTable.lookup kv.1 with
  | none => .ok b
  | some f => tcApply b f kv.2

def tcFinalize (b : TCBuilder) : TsConfig :=
  { «exclude» := (slotJoin b.«exclude»), «extends» := (slotJoin b.«extends»),
    files := (slotJoin b.files), «include» := (slotJoin b.«include»),
    references := (slotJoin b.references),
    type_acquisition := (slotJoin b.type_acquisition),
    compiler_options := (slotJoin b.compiler_options) }

/-- The serde-derived `Deserialize` for `TsConfig`. -/
def tsConfigOfJson : Json → Except DeError TsConfig
  | .obj kvs =>
    match foldSteps tcStep {} kvs with
    | .error e => .error e
    | .ok b => .ok (tcFinalize b)
  | _ => .error (.invalidType "struct TsConfig")

/-- `parse_str`: the crate's entry point.  Remove trailing commas before `}`
with the regex pass, strip comments, then parse strict JSON and map the tree
onto `TsConfig`. -/
def parse_str (json : String) : Except DeError TsConfig :=
  match preprocess json with
  | .error e => .error e
  | .ok stripped =>
    match parseJson stripped with
    | none => .error .syntaxError
    | some v => tsConfigOfJson v

/-! ### Helper lemmas -/

/-- A key outside the key column of an association table has no entry. -/
theorem lookup_none {β : Type} :
    ∀ (l : List (String × β)) (k : String), k ∉ l.map Prod.fst → l.lookup k = none := by
  intro l
  induction l with
  | nil => intro k _; rfl
  | cons p l ih =>
    intro k h
    obtain ⟨a, b⟩ := p
    simp only [List.map_cons, List.mem_cons, not_or] at h
    cases hbe : k == a with
    | true => exact absurd (eq_of_beq hbe) h.1
    | false => simp [List.lookup, hbe, ih k h.2]

/-- A successful table lookup returns a value from the table's value column. -/
theorem lookup_mem {β : Type} :
    ∀ (l : List (String × β)) (k : String) (v : β),
      l.lookup k = some v → v ∈ l.map Prod.snd := by
  intro l
  induction l with
  | nil => intro k v h; simp [List.lookup] at h
  | cons p l ih =>
    intro k v h
    obtain ⟨a, b⟩ := p
    cases hbe : k == a with
    | true =>
      rw [List.lookup, hbe] at h
      simp only [Option.some.injEq] at h
      simp [← h]
    | false =>
      rw [List.lookup, hbe] at h
      simp [ih k v h]

/-- The trailing-comma pass is the identity on inputs where the regex has no
match. -/
theorem removeTrailingCommas_id :
    ∀ cs : List Char, hasTrailingComma cs = false → removeTrailingCommas cs = cs := by
  intro cs
  induction cs with
  | nil => intro _; rfl
  | cons c cs ih =>
    intro h
    cases h1 : (c == ',' && wsThenBrace cs) with
    | true => simp [hasTrailingComma, h1] at h
    | false =>
      simp only [hasTrailingComma, h1, Bool.false_or] at h
      simp [removeTrailingCommas, h1, ih h]

/-- On input accepted by the comment-free scanner, the `StripComments`
machine is the identity (stated for the three states the scanner shares). -/
theorem stripGo_clean :
    ∀ cs : List Char,
      (cleanGo .top cs = true → stripGo .top cs = .ok cs) ∧
      (cleanGo .inStr cs = true → stripGo .inStr cs = .ok cs) ∧
      (cleanGo .esc cs = true → stripGo .strEsc cs = .ok cs) := by
  intro cs
  induction cs with
  | nil =>
    refine ⟨fun _ => rfl, fun h => ?_, fun h => ?_⟩ <;> simp [cleanGo] at h
  | cons c cs ih =>
    obtain ⟨iht, ihs, ihe⟩ := ih
    refine ⟨?_, ?_, ?_⟩
    · intro h
      cases h1 : (c == '/' || c == '#') with
      | true => simp [cleanGo, h1] at h
      | false =>
        have h1s : (c == '/') = false ∧ (c == '#') = false := by
          constructor <;> [cases hx : (c == '/'); cases hx : (c == '#')] <;>
            simp_all
        cases h2 : (c == '"') with
        | true =>
          simp only [cleanGo, h1, Bool.false_eq_true, if_false, h2, if_true] at h
          simp [stripGo, h2, ihs h, Except.map]
        | false =>
          simp only [cleanGo, h1, Bool.false_eq_true, if_false, h2, if_true] at h
          simp [stripGo, h2, h1s.1, h1s.2, iht h, Except.map]
    · intro h
      cases h2 : (c == '"') with
      | true =>
        simp only [cleanGo, h2, if_true] at h
        simp [stripGo, h2, iht h, Except.map]
      | false =>
        cases h3 : (c == '\\') with
        | true =>
          simp only [cleanGo, h2, Bool.false_eq_true, if_false, h3, if_true] at h
          simp [stripGo, h2, h3, ihe h, Except.map]
        | false =>
          simp only [cleanGo, h2, Bool.false_eq_true, if_false, h3] at h
          simp [stripGo, h2, h3, ihs h, Except.map]
    · intro h
      simp only [cleanGo] at h
      simp [stripGo, ihs h, Except.map]

/-- A visitor fold is unchanged when the members it ignores are filtered
away. -/
theorem foldSteps_filter {σ : Type} (step : σ → (String × Json) → Except DeError σ)
    (p : (String × Json) → Bool)
    (hstep : ∀ b kv, p kv = false → step b kv = .ok b) :
    ∀ (kvs : List (String × Json)) (b : σ),
      foldSteps step b kvs = foldSteps step b (kvs.filter p) := by
  intro kvs
  induction kvs with
  | nil => intro b; rfl
  | cons kv kvs ih =>
    intro b
    cases hp : p kv with
    | true =>
      simp only [List.filter_cons, hp, if_true]
      cases hs : step b kv with
      | error e => simp [foldSteps, hs]
      | ok b2 => simp [foldSteps, hs, ih b2]
    | false =>
      simp only [List.filter_cons, hp, Bool.false_eq_true, if_false]
      simp [foldSteps, hstep b kv hp, ih b]

/-- Keys of the `TsConfig` schema. -/
def tcKnownKey (k : String) : Bool := (tcFieldTable.lookup k).isSome

/-- Keys of the `CompilerOptions` schema. -/
def coKnownKey (k : String) : Bool := (coFieldTable.lookup k).isSome

theorem tcStep_unknown (b : TCBuilder) (kv : String × Json)
    (h : tcKnownKey kv.1 = false) : tcStep b kv = .ok b := by
  have hl : tcFieldTable.lookup kv.1 = none := by
    unfold tcKnownKey at h
    cases hx : tcFieldTable.lookup kv.1 with
    | none => rfl
    | some f => rw [hx] at h; simp at h
  simp [tcStep, hl]

theorem coStep_unknown (b : COBuilder) (kv : String × Json)
    (h : coKnownKey kv.1 = false) : coStep b kv = .ok b := by
  have hl : coFieldTable.lookup kv.1 = none := by
    unfold coKnownKey at h
    cases hx : coFieldTable.lookup kv.1 with
    | none => rfl
    | some f => rw [hx] at h; simp at h
  simp [coStep, hl]

/-! ### Claims -/

/-- C1, counterexample: the claim says the unknown token `"ES2099"`
deserializes successfully into a fallback variant for the target, lib and
module domains; in fact all three deserializers reject it with an
invalid-value error (none of the enums even has a fallback variant). -/
theorem C1_counterexample :
    targetDeserialize "ES2099" = .error (.invalidValue "ES2099" "valid target type") ∧
    libDeserialize "ES2099" = .error (.invalidValue "ES2099" "valid library type") ∧
    moduleDeserialize "ES2099" = .error (.invalidValue "ES2099" "valid module type") :=
  ⟨rfl, rfl, rfl⟩

/-- C1, amended: no enum domain has a fallback.  A token outside the known
vocabulary fails with an invalid-value error in Target, Lib and Module
(naming the uppercased token), and with an unknown-variant error in Jsx and
ModuleResolutionMode. -/
theorem C1_no_fallback_domains :
    (∀ s : String, (toUppercase s) ∉ targetTable.map Prod.fst →
      targetDeserialize s = .error (.invalidValue (toUppercase s) "valid target type")) ∧
    (∀ s : String, (toUppercase s) ∉ libTable.map Prod.fst →
      libDeserialize s = .error (.invalidValue (toUppercase s) "valid library type")) ∧
    (∀ s : String, (toUppercase s) ∉ moduleTable.map Prod.fst →
      moduleDeserialize s = .error (.invalidValue (toUppercase s) "valid module type")) ∧
    (∀ s : String, s ∉ jsxTable.map Prod.fst →
      jsxDeserialize s = .error (.unknownVariant s)) ∧
    (∀ s : String, s ∉ mrmTable.map Prod.fst →
      mrmDeserialize s = .error (.unknownVariant s)) := by
  refine ⟨?_, ?_, ?_, ?_, ?_⟩ <;> intro s h <;>
    simp [targetDeserialize, libDeserialize, moduleDeserialize, jsxDeserialize,
      mrmDeserialize, lookup_none _ _ h]

/-- C1, witness: the amended theorem applied at concrete unknown tokens of
each domain. -/
theorem C1_no_fallback_domains_witness :
    targetDeserialize "ES2099" = .error (.invalidValue (toUppercase "ES2099") "valid target type") ∧
    libDeserialize "ES2099" = .error (.invalidValue (toUppercase "ES2099") "valid library type") ∧
    moduleDeserialize "ES2099" = .error (.invalidValue (toUppercase "ES2099") "valid module type") ∧
    jsxDeserialize "react-hooks" = .error (.unknownVariant "react-hooks") ∧
    mrmDeserialize "bundler" = .error (.unknownVariant "bundler") :=
  ⟨C1_no_fallback_domains.1 "ES2099" (by decide),
   C1_no_fallback_domains.2.1 "ES2099" (by decide),
   C1_no_fallback_domains.2.2.1 "ES2099" (by decide),
   C1_no_fallback_domains.2.2.2.1 "react-hooks" (by decide),
   C1_no_fallback_domains.2.2.2.2 "bundler" (by decide)⟩

/-- C2: the claim says a JSON boolean under `typeAcquisition` resolves to
the boolean variant and a settings object to the structured variant.  The
source derives `Deserialize` for `TypeAcquisition` without
`#[serde(untagged)]`, so the generated code wants the externally tagged
encoding: a bare boolean fails with an invalid-type error, a plain settings
object fails with an unknown-variant error, and only the tagged
`{"Bool": true}` shape (which no real tsconfig document uses) parses. -/
theorem C2_type_acquisition_not_untagged :
    parse_str "\x7b\"typeAcquisition\": true\x7d" =
      .error (.invalidType "enum TypeAcquisition") ∧
    parse_str "\x7b\"typeAcquisition\": \x7b\"enable\": true\x7d\x7d" =
      .error (.unknownVariant "enable") ∧
    parse_str "\x7b\"typeAcquisition\": \x7b\"Bool\": true\x7d\x7d" =
      .ok { type_acquisition := some (.Bool true) } :=
  ⟨rfl, rfl, rfl⟩

/-- C3: the claim says every nesting level matches keys by their camelCase
form.  Only the top-level `TsConfig` struct carries
`#[serde(rename_all = "camelCase")]`; `CompilerOptions` does not, so the
camelCase key `"allowJs"` is silently dropped as unknown (leaving `allow_js`
unset) while the snake_case key `"allow_js"` is the one that matches. -/
theorem C3_compiler_options_keys_are_snake_case :
    parse_str "\x7b\"compilerOptions\": \x7b\"allowJs\": true\x7d\x7d" =
      .ok { compiler_options := some {} } ∧
    parse_str "\x7b\"compilerOptions\": \x7b\"allow_js\": true\x7d\x7d" =
      .ok { compiler_options := some { allow_js := some true } } ∧
    tcFieldTable.lookup "compilerOptions" = some TCField.compiler_options ∧
    coFieldTable.lookup "allowJs" = none :=
  ⟨rfl, rfl, rfl, rfl⟩

/-- C4, counterexample: the claim extends case-insensitivity to
ModuleResolutionMode, but that derived deserializer matches its renamed
tokens exactly: `"node"` parses while its casing `"NODE"` is rejected. -/
theorem C4_counterexample :
    mrmDeserialize "node" = .ok ModuleResolutionMode.Node ∧
    mrmDeserialize "NODE" = .error (.unknownVariant "NODE") :=
  ⟨rfl, rfl⟩

/-- C4, amended: the hand-written deserializers (Target, Lib, Module)
uppercase the token before the table lookup, so inputs with the same
uppercasing — in particular any case-variants of a known token — always
produce equal results; the derived ModuleResolutionMode (like Jsx) is
case-sensitive. -/
theorem C4_case_insensitive_fallbackless :
    (∀ s t : String, (toUppercase s) = (toUppercase t) →
      targetDeserialize s = targetDeserialize t) ∧
    (∀ s t : String, (toUppercase s) = (toUppercase t) →
      libDeserialize s = libDeserialize t) ∧
    (∀ s t : String, (toUppercase s) = (toUppercase t) →
      moduleDeserialize s = moduleDeserialize t) := by
  refine ⟨?_, ?_, ?_⟩ <;> intro s t h <;>
    simp [targetDeserialize, libDeserialize, moduleDeserialize, h]

/-- C4, witness: the amended theorem applied to two casings of `"es2020"`;
both deserialize to the same (successful) Target value. -/
theorem C4_case_insensitive_fallbackless_witness :
    toUppercase "es2020" = toUppercase "Es2020" ∧
    targetDeserialize "es2020" = targetDeserialize "Es2020" ∧
    targetDeserialize "es2020" = .ok Target.Es2020 :=
  ⟨by decide, C4_case_insensitive_fallbackless.1 "es2020" "Es2020" (by decide), rfl⟩

/-- C5: the trailing-comma asymmetry.  A comma right before `}` is removed
by the regex pass, so the object document parses; a comma right before `]`
is left in place and the strict JSON stage rejects the array document. -/
theorem C5_trailing_comma_asymmetry :
    parse_str "\x7b\"compilerOptions\": \x7b\"strict\": true,\x7d\x7d" =
      .ok { compiler_options := some { strict := some true } } ∧
    parse_str "\x7b\"include\": [\"src/**/*\",]\x7d" = .error .syntaxError :=
  ⟨rfl, rfl⟩

/-- C6, counterexample: the claim says preprocessing is the identity on
every strict-JSON input, even when a string value contains a comma followed
by a closing brace.  The regex pass is not string-aware: the strict-JSON
document whose `extends` value is the two-character string `",}"` is
rewritten (the comma inside the string literal is deleted), and the parsed
`extends` field comes out as `"}"`. -/
theorem C6_counterexample :
    parseJson "\x7b\"extends\": \",\x7d\"\x7d" =
      some (.obj [("extends", .str ",\x7d")]) ∧
    preprocess "\x7b\"extends\": \",\x7d\"\x7d" = .ok "\x7b\"extends\": \"\x7d\"\x7d" ∧
    "\x7b\"extends\": \"\x7d\"\x7d" ≠ "\x7b\"extends\": \",\x7d\"\x7d" ∧
    parse_str "\x7b\"extends\": \",\x7d\"\x7d" = .ok { «extends» := some "\x7d" } :=
  ⟨rfl, rfl, by decide, rfl⟩

/-- C6, amended: preprocessing is the identity on inputs with no comment
trigger outside string literals (all string literals terminated) and no
comma followed, modulo whitespace, by a closing brace anywhere — in
particular on strict JSON whose string values avoid that sequence.  A
strict-JSON string value containing the sequence is altered, because the
comma-stripping regex is not string-aware. -/
theorem C6_preprocess_identity (s : String)
    (h1 : hasTrailingComma s.data = false)
    (h2 : cleanGo .top s.data = true) : preprocess s = .ok s := by
  unfold preprocess stripComments
  rw [removeTrailingCommas_id s.data h1, (stripGo_clean s.data).1 h2]
  rfl

/-- C6, witness: the amended identity applied to a concrete strict-JSON
document. -/
theorem C6_preprocess_identity_witness :
    hasTrailingComma "\x7b\"files\": [\"a.ts\"]\x7d".data = false ∧
    cleanGo SState.top "\x7b\"files\": [\"a.ts\"]\x7d".data = true ∧
    preprocess "\x7b\"files\": [\"a.ts\"]\x7d" = .ok "\x7b\"files\": [\"a.ts\"]\x7d" :=
  ⟨by decide, by decide, C6_preprocess_identity _ (by decide) (by decide)⟩

/-- C7: the untagged `references` field.  A bare boolean resolves to the
boolean variant; an array of objects with a `path` resolves to a list of
references with `prepend` unset; an array element without `path` makes the
whole field fail. -/
theorem C7_references_polymorphic :
    parse_str "\x7b\"references\": true\x7d" =
      .ok { references := some (.Bool true) } ∧
    parse_str "\x7b\"references\": [\x7b\"path\": \"../lib\"\x7d]\x7d" =
      .ok { references := some (.References [{ path := "../lib" }]) } ∧
    parse_str "\x7b\"references\": [\x7b\"prepend\": true\x7d]\x7d" =
      .error (.untaggedNoMatch "References") :=
  ⟨rfl, rfl, rfl⟩

/-- C8: unknown keys never contribute to the result: at the top level and
inside `compilerOptions`, mapping an object is the same as mapping the
object with every non-schema key filtered away — so unknown keys cannot
cause an error and leave no trace in the output. -/
theorem C8_unknown_keys_dropped :
    (∀ kvs : List (String × Json),
      tsConfigOfJson (.obj kvs) =
        tsConfigOfJson (.obj (kvs.filter (fun kv => tcKnownKey kv.1)))) ∧
    (∀ kvs : List (String × Json),
      compilerOptionsOfJson (.obj kvs) =
        compilerOptionsOfJson (.obj (kvs.filter (fun kv => coKnownKey kv.1)))) := by
  constructor
  · intro kvs
    simp only [tsConfigOfJson]
    rw [foldSteps_filter tcStep (fun kv => tcKnownKey kv.1)
      (fun b kv h => tcStep_unknown b kv h) kvs]
  · intro kvs
    simp only [compilerOptionsOfJson]
    rw [foldSteps_filter coStep (fun kv => coKnownKey kv.1)
      (fun b kv h => coStep_unknown b kv h) kvs]

/-- C9: parsing the empty object succeeds and every field of the resulting
document is unset. -/
theorem C9_empty_object :
    parse_str "\x7b\x7d" =
      .ok { «exclude» := none, «extends» := none, files := none,
            «include» := none, references := none, type_acquisition := none,
            compiler_options := none } :=
  rfl

/-- C10: the `Target` table has no `"ES3"` arm, so every casing of `"es3"`
fails with an invalid-value error and the declared `Es3` variant is
unreachable from the deserializer. -/
theorem C10_es3_unreachable :
    (∀ s : String, (toUppercase s) = "ES3" →
      targetDeserialize s = .error (.invalidValue "ES3" "valid target type")) ∧
    (∀ s : String, targetDeserialize s ≠ .ok Target.Es3) := by
  constructor
  · intro s h
    simp only [targetDeserialize, h]
    rfl
  · intro s h
    unfold targetDeserialize at h
    cases hl : targetTable.lookup (toUppercase s) with
    | none => rw [hl] at h; simp at h
    | some t =>
      rw [hl] at h
      simp only [Except.ok.injEq] at h
      have hm := lookup_mem _ _ _ hl
      rw [h] at hm
      simp [targetTable] at hm

/-- C10, witness: the theorem applied to the concrete casing `"Es3"`. -/
theorem C10_es3_unreachable_witness :
    targetDeserialize "Es3" = .error (.invalidValue "ES3" "valid target type") ∧
    targetDeserialize "Es3" ≠ .ok Target.Es3 :=
  ⟨C10_es3_unreachable.1 "Es3" (by decide), C10_es3_unreachable.2 "Es3"⟩

end Tsconfig
